import Mathlib

/-!
Verification of the build-configuration generators in
`src/packages/uberenv-sw4/package.py` (Alpine-DAV/sw4_uberenv).

The file shallowly embeds the two emitters of that package:

* `create_host_config` (package.py lines 143-304; the identical second
  definition at lines 425-586 shadows the first, so a single Lean
  definition embeds both), which writes a CMake "host-config" file, and
* `makefile_inc` (package.py lines 306-423), which writes a `make.inc`
  file.

All ambient inputs the Python code reads (environment variables, the
spack `spec` object, `socket.gethostname()`, `which`, `os.path.isfile`)
are gathered into an explicit `Config` record, so each emitter becomes a
pure function from `Config` to the sequence of chunks it writes.
-/

namespace Sw4Uberenv

/-- The CMake cache-entry type chosen by `cmake_cache_entry`
(package.py lines 23-27): when no explicit type is passed, `BOOL` for
the values `"ON"` and `"OFF"`, `PATH` for everything else. -/
def cache_vtype (value : String) (vtype : Option String) : String :=
  match vtype with
  | some t => t
  | none => if value = "ON" ∨ value = "OFF" then "BOOL" else "PATH"

/-- package.py lines 18-28: `cmake_cache_entry(name, value, vtype=None)`
returns `set({0} "{1}" CACHE {2}"")\n\n.format(name, value, vtype)`.
Note the source format string has no space between the type and the
trailing `""`. -/
def cmake_cache_entry (name value : String) (vtype : Option String := none) : String :=
  "set(" ++ name ++ " \"" ++ value ++ "\" CACHE " ++ cache_vtype value vtype ++ "\"\")\n\n"

/-- package.py lines 30-31: `{0} = {1} \n.format(name, value)`. -/
def make_entry (name value : String) : String :=
  name ++ " = " ++ value ++ " \n"

/-- package.py lines 33-34: ` -L {0}/lib/.format(value)`. -/
def make_lib_entry (value : String) : String :=
  " -L " ++ value ++ "/lib/"

/-- package.py lines 36-37: ` -I{0}/include/.format(value)`. -/
def make_inc_entry (value : String) : String :=
  " -I" ++ value ++ "/include/"

/-- the spack helper `join_path`, used at package.py line 268, joins with `/`. -/
def join_path (a b : String) : String :=
  a ++ "/" ++ b

/-- Python renders `None` as the string `"None"` when formatted; an
optional string is rendered as itself when present.  Used for the
`f_compiler` value passed to `make_entry` at package.py line 361. -/
def pyStrOpt : Option String → String
  | none => "None"
  | some s => s

/-- All ambient inputs read by the two emitters, gathered into one
record.  Each field names the source expression it stands for. -/
structure Config where
  /-- `env["SPACK_CC"]` (line 165 / 315). -/
  spack_cc : String
  /-- `env["SPACK_CXX"]` (line 166 / 316). -/
  spack_cxx : String
  /-- truthiness of `self.compiler.fc` (line 169 / 319). -/
  compiler_fc : Bool
  /-- `which(env["SPACK_FC"])` (line 171 / 321): `none` when not found. -/
  which_fc : Option String
  /-- `spec.architecture` rendered as a string (line 179 / 329). -/
  architecture : String
  /-- `env["SYS_TYPE"]` when present (lines 181-182 / 331-332). -/
  sys_type_env : Option String
  /-- `spec.compiler` rendered as a string (line 199 / 340). -/
  compiler : String
  /-- `"+cmake" in spec` (line 188). -/
  has_cmake_variant : Bool
  /-- `spec[cmake].command.path` (line 189). -/
  cmake_command_path : String
  /-- `which("cmake")` (line 191): `none` when not found. -/
  which_cmake : Option String
  /-- `socket.gethostname()` (line 197 / 338). -/
  hostname : String
  /-- `"+shared" in spec` (line 224). -/
  shared : Bool
  /-- `"+test" in spec` (line 232). -/
  test : Bool
  /-- `"+mpi" in spec` (line 261). -/
  mpi : Bool
  /-- `"+cuda" in spec` (line 287). -/
  cuda : Bool
  /-- `"+openmp" in spec` (line 292). -/
  openmp : Bool
  /-- `spec[netlib-lapack].prefix` (line 246 / 371 / 393). -/
  lapack_root : String
  /-- `spec[blas].prefix` (line 247 / 373 / 395). -/
  blas_root : String
  /-- `spec[umpire].prefix` (lines 248-249 / 375 / 397). -/
  umpire_root : String
  /-- `spec[raja].prefix` (line 377 / 399). -/
  raja_root : String
  /-- `spec[proj].prefix` (line 379 / 401). -/
  proj_root : String
  /-- `spec[mpi].mpicc` (line 263). -/
  mpicc : String
  /-- `spec[mpi].mpicxx` (lines 265, 359, 362, 384). -/
  mpicxx : String
  /-- `spec[mpi].mpifc` (line 267). -/
  mpifc : String
  /-- `spec[mpi].prefix.bin` (line 268). -/
  mpi_bin_dir : String
  /-- `os.path.isfile(mpiexe_bin)` (line 269). -/
  mpiexec_isfile : Bool
  /-- `self.spec["cmake"].satisfies(@3.10:)` (line 272). -/
  cmake_ge_310 : Bool
deriving DecidableEq

/-- package.py lines 167-171 / 317-321: `f_compiler` is `None` unless
`self.compiler.fc` is set, in which case it is `which(env["SPACK_FC"])`
(itself possibly `None`). -/
def f_compiler (cfg : Config) : Option String :=
  if cfg.compiler_fc then cfg.which_fc else none

/-- package.py lines 179-182 / 329-332: `sys_type` is
`spec.architecture`, overridden by `env["SYS_TYPE"]` when that variable
is set. -/
def sys_type (cfg : Config) : String :=
  match cfg.sys_type_env with
  | some s => s
  | none => cfg.architecture

/-- One chunk written to the host-config file: either a raw string
(banner or comment) or a cache entry produced by `cmake_cache_entry`
with the default (inferred) type, which is how every call site in
`create_host_config` uses it. -/
inductive HCItem where
  | raw (s : String)
  | entry (name value : String)
deriving DecidableEq

/-- The text a `HCItem` contributes to the host-config file. -/
def HCItem.render : HCItem → String
  | .raw s => s
  | .entry n v => cmake_cache_entry n v none

/-- The sequence of chunks `create_host_config` writes
(package.py lines 202-299), one list element per `cfg.write(...)` call,
given the already-resolved cmake executable path. -/
def hc_items (cfg : Config) (cmake_exe : String) : List HCItem :=
  [ .raw "##################################\n",
    .raw "# spack generated host-config\n",
    .raw "##################################\n",
    .raw ("# " ++ sys_type cfg ++ "-" ++ cfg.compiler ++ "\n"),
    .raw "##################################\n\n",
    .raw "# cmake from spack \n",
    .raw ("# cmake executable path: " ++ cmake_exe ++ "\n\n"),
    .raw "#######\n",
    .raw ("# using " ++ cfg.compiler ++ " compiler spec\n"),
    .raw "#######\n\n",
    .raw "# c compiler used by spack\n",
    .entry "CMAKE_C_COMPILER" cfg.spack_cc,
    .raw "# cpp compiler used by spack\n",
    .entry "CMAKE_CXX_COMPILER" cfg.spack_cxx ]
  ++ (if cfg.shared then
        [HCItem.entry "BUILD_SHARED_LIBS" "ON"]
      else
        [HCItem.entry "BUILD_SHARED_LIBS" "OFF"])
  ++ (if cfg.test then
        [HCItem.entry "ENABLE_TESTS" "ON"]
      else
        [HCItem.entry "ENABLE_TESTS" "OFF"])
  ++ [ .raw "# conduit from spack \n",
       .entry "LAPACK_DIR" cfg.lapack_root,
       .entry "BLAS_DIR" cfg.blas_root,
       .entry "UMPIRE_DIR" cfg.umpire_root,
       .entry "UMPIRE_DIR" cfg.umpire_root,
       .raw "# MPI Support\n" ]
  ++ (if cfg.mpi then
        [ HCItem.entry "ENABLE_MPI" "ON",
          HCItem.entry "MPI_C_COMPILER" cfg.mpicc,
          HCItem.entry "MPI_CXX_COMPILER" cfg.mpicxx,
          HCItem.entry "MPI_Fortran_COMPILER" cfg.mpifc ]
        ++ (if cfg.mpiexec_isfile then
              (if cfg.cmake_ge_310 then
                [HCItem.entry "MPIEXEC_EXECUTABLE" (join_path cfg.mpi_bin_dir "mpiexec")]
              else
                [HCItem.entry "MPIEXEC" (join_path cfg.mpi_bin_dir "mpiexec")])
            else [])
      else
        [HCItem.entry "ENABLE_MPI" "OFF"])
  ++ [ .raw "# CUDA Support\n" ]
  ++ (if cfg.cuda then
        [HCItem.entry "ENABLE_CUDA" "ON"]
      else
        [HCItem.entry "ENABLE_CUDA" "OFF"])
  ++ (if cfg.openmp then
        [HCItem.entry "ENABLE_OPENMP" "ON"]
      else
        [HCItem.entry "ENABLE_OPENMP" "OFF"])
  ++ [ .raw "##################################\n",
       .raw "# end spack generated host-config\n",
       .raw "##################################\n" ]

/-- package.py lines 143-304: resolve the cmake executable (lines
188-195: use `spec[cmake].command.path` when the `+cmake` variant is
set, otherwise `which("cmake")`, raising `RuntimeError` when that finds
nothing), then return the output filename
(`"%s-%s-%s-ascent.cmake" % (hostname, sys_type, compiler)`, line 197)
together with the written chunks. -/
def create_host_config (cfg : Config) : Except String (String × List HCItem) :=
  let cmake_exe? : Except String String :=
    if cfg.has_cmake_variant then
      Except.ok cfg.cmake_command_path
    else
      match cfg.which_cmake with
      | none => Except.error "failed to find CMake (and cmake variant is off)"
      | some p => Except.ok p
  match cmake_exe? with
  | Except.error e => Except.error e
  | Except.ok cmake_exe =>
      Except.ok
        (cfg.hostname ++ "-" ++ sys_type cfg ++ "-" ++ cfg.compiler ++ "-ascent.cmake",
         hc_items cfg cmake_exe)

/-- The full text of the host-config file. -/
def hc_content (cfg : Config) (cmake_exe : String) : String :=
  String.join ((hc_items cfg cmake_exe).map HCItem.render)

/-- The cache entries among the written chunks, as (name, value) pairs,
in emission order. -/
def hc_entries (cfg : Config) (cmake_exe : String) : List (String × String) :=
  (hc_items cfg cmake_exe).filterMap fun i =>
    match i with
    | .entry n v => some (n, v)
    | .raw _ => none

/-- The names of the emitted cache entries, in emission order. -/
def hc_entry_names (cfg : Config) (cmake_exe : String) : List String :=
  (hc_entries cfg cmake_exe).map Prod.fst

/-- package.py lines 306-423: the `make.inc` emitter.  Returns the
output filename (`"make-%s-%s-%s-ascent.inc"`, line 338) and the chunks
written, one list element per `cfg.write(...)` call (lines 343-418). -/
def makefile_inc (cfg : Config) : String × List String :=
  ("make-" ++ cfg.hostname ++ "-" ++ sys_type cfg ++ "-" ++ cfg.compiler ++ "-ascent.inc",
   [ "##################################\n",
     "# spack generated make.inc\n",
     "##################################\n",
     "# " ++ sys_type cfg ++ "-" ++ cfg.compiler ++ "\n",
     "##################################\n\n",
     "#######\n",
     "# using " ++ cfg.compiler ++ " compiler spec\n",
     "#######\n\n",
     "# c compiler used by spack\n",
     make_entry "CC" cfg.spack_cc,
     "# cpp compiler used by spack\n",
     make_entry "CXX" cfg.mpicxx,
     "# fortran compiler used by spack\n",
     make_entry "FC" (pyStrOpt (f_compiler cfg)),
     make_entry "CC" cfg.mpicxx,
     make_entry "LINKER" "nvcc",
     "EXTRA_CXX_FLAGS = ",
     make_inc_entry cfg.lapack_root,
     make_inc_entry cfg.blas_root,
     make_inc_entry cfg.umpire_root,
     make_inc_entry cfg.raja_root,
     make_inc_entry cfg.proj_root,
     " -DSW4_USE_UMPIRE=1 -DSW4_RAJA_VERSION=7",
     " -std=c++11",
     " -ccbin " ++ cfg.mpicxx,
     " -Xcompiler \"-fopenmp\"",
     "\n",
     "EXTRA_LINK_FLAGS = ",
     make_lib_entry cfg.lapack_root,
     make_lib_entry cfg.blas_root,
     make_lib_entry cfg.umpire_root,
     make_lib_entry cfg.raja_root,
     make_lib_entry cfg.proj_root,
     "\n",
     "##################################\n",
     "# end spack generated make.inc\n",
     "##################################\n" ])

/-- The cache-entry names the MPI conditional block can emit
(package.py lines 261-279). -/
def mpiNames : List String :=
  ["ENABLE_MPI", "MPI_C_COMPILER", "MPI_CXX_COMPILER",
   "MPI_Fortran_COMPILER", "MPIEXEC", "MPIEXEC_EXECUTABLE"]

/-- The two mutually exclusive names for the mpiexec cache entry
(package.py lines 272-277). -/
def mpiexecNames : List String :=
  ["MPIEXEC", "MPIEXEC_EXECUTABLE"]

/-! ## Helper lemmas and concrete configurations -/

/-- String append is associative; proved by passing to the underlying
character lists. -/
theorem str_append_assoc (a b c : String) : a ++ b ++ c = a ++ (b ++ c) := by
  rcases a with ⟨A⟩; rcases b with ⟨B⟩; rcases c with ⟨C⟩
  show String.mk (A ++ B ++ C) = String.mk (A ++ (B ++ C))
  rw [List.append_assoc]

/-- The host-config emitter fails exactly when the `+cmake` variant is
off and the executable lookup for cmake finds nothing
(package.py lines 188-195). -/
theorem host_config_error_iff (cfg : Config) :
    (∃ e, create_host_config cfg = Except.error e)
      ↔ (cfg.has_cmake_variant = false ∧ cfg.which_cmake = none) := by
  unfold create_host_config
  cases hcm : cfg.has_cmake_variant <;> cases hwc : cfg.which_cmake <;> simp

/-- A concrete configuration with the mpi feature off (and no Fortran
compiler detected). -/
def cfgNoMpi : Config :=
  { spack_cc := "/opt/gcc/bin/gcc", spack_cxx := "/opt/gcc/bin/g++",
    compiler_fc := false, which_fc := none,
    architecture := "linux-x86_64", sys_type_env := none,
    compiler := "gcc@8.1.0", has_cmake_variant := true,
    cmake_command_path := "/usr/bin/cmake", which_cmake := none,
    hostname := "myhost", shared := true, test := false, mpi := false,
    cuda := true, openmp := false,
    lapack_root := "/tpl/lapack", blas_root := "/tpl/blas",
    umpire_root := "/tpl/umpire", raja_root := "/tpl/raja",
    proj_root := "/tpl/proj",
    mpicc := "/mpi/bin/mpicc", mpicxx := "/mpi/bin/mpicxx",
    mpifc := "/mpi/bin/mpifc", mpi_bin_dir := "/mpi/bin",
    mpiexec_isfile := false, cmake_ge_310 := true }

/-- The same concrete configuration with the mpi feature on, an
`mpiexec` file present under the MPI bin directory, and cmake at least
3.10. -/
def cfgMpi : Config :=
  { cfgNoMpi with mpi := true, mpiexec_isfile := true, cmake_ge_310 := true }

/-- The `EXTRA_CXX_FLAGS` fragment sequence as the spec describes it,
amended only in that the `-ccbin` fragment is present unconditionally:
an include fragment for each of lapack, blas, the memory-pool library
(umpire), the portability layer (raja) and the projection library
(proj), then the macro flags, the C++ standard flag, the `-ccbin`
host-compiler binding, and the OpenMP flag. -/
def extra_cxx_flags_chunks (cfg : Config) : List String :=
  [ "EXTRA_CXX_FLAGS = ",
    " -I" ++ cfg.lapack_root ++ "/include/",
    " -I" ++ cfg.blas_root ++ "/include/",
    " -I" ++ cfg.umpire_root ++ "/include/",
    " -I" ++ cfg.raja_root ++ "/include/",
    " -I" ++ cfg.proj_root ++ "/include/",
    " -DSW4_USE_UMPIRE=1 -DSW4_RAJA_VERSION=7",
    " -std=c++11",
    " -ccbin " ++ cfg.mpicxx,
    " -Xcompiler \"-fopenmp\"",
    "\n" ]

/-! ## Claim theorems -/

/-- C1: for every cache entry emitted without an explicit type, the
CACHE type is `BOOL` exactly when the value string is `"ON"` or
`"OFF"`, and `PATH` for every other value. -/
theorem c1_cache_type_inference (v : String) :
    (cache_vtype v none = "BOOL" ↔ (v = "ON" ∨ v = "OFF"))
    ∧ (¬(v = "ON" ∨ v = "OFF") → cache_vtype v none = "PATH") := by
  unfold cache_vtype
  by_cases h1 : v = "ON" <;> by_cases h2 : v = "OFF" <;> simp [h1, h2]

/-- Witness for C1 at the values `"ON"` and `"/tpl/lapack"`. -/
theorem c1_cache_type_inference_witness :
    cache_vtype "ON" none = "BOOL" ∧ cache_vtype "/tpl/lapack" none = "PATH" :=
  ⟨(c1_cache_type_inference "ON").1.mpr (Or.inl rfl),
   (c1_cache_type_inference "/tpl/lapack").2 (by decide)⟩

/-- C2 counterexample: the entry line the code emits for
`LAPACK_DIR = "/tpl/lapack"` has no space between the type token and
the trailing empty docstring, so it differs from the form
`set(<NAME> "<VALUE>" CACHE <TYPE> "")` the claim states. -/
theorem c2_entry_line_counterexample :
    cmake_cache_entry "LAPACK_DIR" "/tpl/lapack" none
      = "set(LAPACK_DIR \"/tpl/lapack\" CACHE PATH\"\")\n\n"
    ∧ cmake_cache_entry "LAPACK_DIR" "/tpl/lapack" none
      ≠ "set(LAPACK_DIR \"/tpl/lapack\" CACHE PATH \"\")\n\n" := by
  decide

/-- C2 (amended): every cache-entry line has exactly the form
`set(<NAME> "<VALUE>" CACHE <TYPE>"")` — with no space between the type
token and the trailing empty docstring — followed by a blank line. -/
theorem c2_entry_line_format (n v : String) (t : Option String) :
    cmake_cache_entry n v t
      = ("set(" ++ n ++ " \"" ++ v ++ "\" CACHE " ++ cache_vtype v t ++ "\"\")") ++ "\n\n" := by
  have hlit : ("\"\")" : String) ++ "\n\n" = "\"\")\n\n" := by decide
  unfold cmake_cache_entry
  simp only [str_append_assoc, hlit]

/-- C3: when the mpi feature flag is false, the host-config emitter
writes exactly one MPI-related cache entry, `ENABLE_MPI` with value
`"OFF"`, and none named `MPI_C_COMPILER`, `MPI_CXX_COMPILER`,
`MPI_Fortran_COMPILER`, `MPIEXEC` or `MPIEXEC_EXECUTABLE`. -/
theorem c3_no_mpi_single_entry (cfg : Config) (exe : String) (h : cfg.mpi = false) :
    (hc_entries cfg exe).filter (fun e => mpiNames.contains e.1)
      = [("ENABLE_MPI", "OFF")] := by
  unfold hc_entries hc_items
  rw [h]
  cases hsh : cfg.shared <;> cases hte : cfg.test <;>
    cases hcu : cfg.cuda <;> cases hop : cfg.openmp <;>
    simp [mpiNames]

/-- Witness for C3 at the concrete configuration `cfgNoMpi`. -/
theorem c3_no_mpi_single_entry_witness :
    (hc_entries cfgNoMpi "/usr/bin/cmake").filter (fun e => mpiNames.contains e.1)
      = [("ENABLE_MPI", "OFF")] :=
  c3_no_mpi_single_entry cfgNoMpi "/usr/bin/cmake" rfl

set_option maxHeartbeats 1600000 in
/-- C4: with the mpi feature on, when an `mpiexec` file exists under
the MPI bin directory its path is emitted under `MPIEXEC_EXECUTABLE`
for cmake at least 3.10 and under `MPIEXEC` otherwise; when no such
file exists, neither name is emitted and no error is raised (any error
of the emitter comes only from the cmake lookup, which is independent
of the probe). -/
theorem c4_mpiexec_probe (cfg : Config) (exe : String) (h : cfg.mpi = true) :
    (cfg.mpiexec_isfile = true → cfg.cmake_ge_310 = true →
      (hc_entry_names cfg exe).filter (fun n => mpiexecNames.contains n)
          = ["MPIEXEC_EXECUTABLE"]
        ∧ ("MPIEXEC_EXECUTABLE", join_path cfg.mpi_bin_dir "mpiexec") ∈ hc_entries cfg exe)
    ∧ (cfg.mpiexec_isfile = true → cfg.cmake_ge_310 = false →
      (hc_entry_names cfg exe).filter (fun n => mpiexecNames.contains n)
          = ["MPIEXEC"]
        ∧ ("MPIEXEC", join_path cfg.mpi_bin_dir "mpiexec") ∈ hc_entries cfg exe)
    ∧ (cfg.mpiexec_isfile = false →
      (hc_entry_names cfg exe).filter (fun n => mpiexecNames.contains n) = [])
    ∧ ((∃ e, create_host_config cfg = Except.error e) →
      cfg.has_cmake_variant = false ∧ cfg.which_cmake = none) := by
  refine ⟨fun hf hv => ?_, fun hf hv => ?_, fun hf => ?_,
    fun he => (host_config_error_iff cfg).mp he⟩
  · unfold hc_entry_names hc_entries hc_items
    rw [h, hf, hv]
    cases hsh : cfg.shared <;> cases hte : cfg.test <;>
      cases hcu : cfg.cuda <;> cases hop : cfg.openmp <;>
      exact ⟨by simp [mpiexecNames], by simp⟩
  · unfold hc_entry_names hc_entries hc_items
    rw [h, hf, hv]
    cases hsh : cfg.shared <;> cases hte : cfg.test <;>
      cases hcu : cfg.cuda <;> cases hop : cfg.openmp <;>
      exact ⟨by simp [mpiexecNames], by simp⟩
  · unfold hc_entry_names hc_entries hc_items
    rw [h, hf]
    cases hsh : cfg.shared <;> cases hte : cfg.test <;>
      cases hcu : cfg.cuda <;> cases hop : cfg.openmp <;>
      simp [mpiexecNames]

/-- Witness for C4 at the concrete configuration `cfgMpi` (mpi on,
`mpiexec` present, cmake at least 3.10). -/
theorem c4_mpiexec_probe_witness :
    (hc_entry_names cfgMpi "/usr/bin/cmake").filter (fun n => mpiexecNames.contains n)
        = ["MPIEXEC_EXECUTABLE"]
      ∧ ("MPIEXEC_EXECUTABLE", join_path cfgMpi.mpi_bin_dir "mpiexec")
          ∈ hc_entries cfgMpi "/usr/bin/cmake" :=
  (c4_mpiexec_probe cfgMpi "/usr/bin/cmake" rfl).1 rfl rfl

/-- C5 counterexample: at the concrete configuration `cfgMpi` the
emitted filenames end in `-ascent.cmake` and `-ascent.inc`, not in
`-host-config.cmake` and `-include.inc` as the claim states. -/
theorem c5_filename_counterexample :
    (create_host_config cfgMpi).toOption.map (fun p => p.1)
        = some "myhost-linux-x86_64-gcc@8.1.0-ascent.cmake"
      ∧ ("myhost-linux-x86_64-gcc@8.1.0-ascent.cmake" : String)
          ≠ "myhost-linux-x86_64-gcc@8.1.0-host-config.cmake"
      ∧ (makefile_inc cfgMpi).1 = "make-myhost-linux-x86_64-gcc@8.1.0-ascent.inc"
      ∧ (makefile_inc cfgMpi).1 ≠ "make-myhost-linux-x86_64-gcc@8.1.0-include.inc" := by
  refine ⟨by decide, by decide, by decide, by decide⟩

/-- C5 (amended): the host-config filename is
`{host}-{platformId}-{compilerId}-ascent.cmake` and the Makefile
filename is `make-{host}-{platformId}-{compilerId}-ascent.inc`, each
built from the host name, the platform identifier (`sys_type`) and the
compiler identity. -/
theorem c5_filename_pattern (cfg : Config) (fname : String) (items : List HCItem)
    (h : create_host_config cfg = Except.ok (fname, items)) :
    fname = cfg.hostname ++ "-" ++ sys_type cfg ++ "-" ++ cfg.compiler ++ "-ascent.cmake"
    ∧ (makefile_inc cfg).1
        = "make-" ++ cfg.hostname ++ "-" ++ sys_type cfg ++ "-" ++ cfg.compiler
            ++ "-ascent.inc" := by
  refine ⟨?_, rfl⟩
  unfold create_host_config at h
  cases hcm : cfg.has_cmake_variant <;> rw [hcm] at h
  · cases hwc : cfg.which_cmake <;> rw [hwc] at h
    · simp at h
    · simp at h; exact h.1.symm
  · simp at h; exact h.1.symm

/-- Witness for C5 (amended) at the concrete configuration `cfgMpi`. -/
theorem c5_filename_pattern_witness :
    ("myhost-linux-x86_64-gcc@8.1.0-ascent.cmake" : String)
        = cfgMpi.hostname ++ "-" ++ sys_type cfgMpi ++ "-" ++ cfgMpi.compiler ++ "-ascent.cmake"
    ∧ (makefile_inc cfgMpi).1
        = "make-" ++ cfgMpi.hostname ++ "-" ++ sys_type cfgMpi ++ "-" ++ cfgMpi.compiler
            ++ "-ascent.inc" :=
  c5_filename_pattern cfgMpi "myhost-linux-x86_64-gcc@8.1.0-ascent.cmake"
    (hc_items cfgMpi "/usr/bin/cmake") rfl

set_option maxHeartbeats 1600000 in
/-- C6: the host-config emitter writes the `UMPIRE_DIR` cache entry
twice in every generation pass (package.py lines 248-249), not once as
the claim states. -/
theorem c6_umpire_dir_emitted_twice (cfg : Config) (exe : String) :
    ((hc_entries cfg exe).map Prod.fst).count "UMPIRE_DIR" = 2 := by
  unfold hc_entries hc_items
  cases hsh : cfg.shared <;> cases hte : cfg.test <;> cases hmp : cfg.mpi <;>
    cases hcu : cfg.cuda <;> cases hop : cfg.openmp <;>
    cases hf : cfg.mpiexec_isfile <;> cases hv : cfg.cmake_ge_310 <;>
    simp [List.count_cons]

/-- C7: the host-config emitter raises its lookup error exactly when
the `+cmake` variant is off and the executable-search-path lookup for
cmake returns nothing; otherwise generation proceeds. -/
theorem c7_cmake_lookup_error_iff (cfg : Config) :
    (∃ e, create_host_config cfg = Except.error e)
      ↔ (cfg.has_cmake_variant = false ∧ cfg.which_cmake = none) :=
  host_config_error_iff cfg

/-- C8 counterexample: at the concrete configuration `cfgNoMpi`, whose
mpi feature flag is false, the Makefile emitter still writes the
`-ccbin` host-compiler-binding fragment into `EXTRA_CXX_FLAGS`
(package.py line 384 is unconditional), contradicting the claimed
equivalence with the mpi flag. -/
theorem c8_ccbin_counterexample :
    cfgNoMpi.mpi = false
    ∧ (" -ccbin /mpi/bin/mpicxx" : String) ∈ (makefile_inc cfgNoMpi).2 := by
  decide

/-- C8 (amended): `EXTRA_CXX_FLAGS` is built by writing, contiguously
and in this fixed order, the include fragment for each of lapack, blas,
the memory-pool library, the portability layer and the projection
library, then the macro flags, the C++ standard flag, the `-ccbin`
binding to the MPI C++ wrapper — unconditionally, whether or not the
mpi feature flag is enabled — and the OpenMP flag. -/
theorem c8_extra_cxx_flags_order (cfg : Config) :
    ∃ s t, (makefile_inc cfg).2 = s ++ extra_cxx_flags_chunks cfg ++ t := by
  refine ⟨[ "##################################\n",
     "# spack generated make.inc\n",
     "##################################\n",
     "# " ++ sys_type cfg ++ "-" ++ cfg.compiler ++ "\n",
     "##################################\n\n",
     "#######\n",
     "# using " ++ cfg.compiler ++ " compiler spec\n",
     "#######\n\n",
     "# c compiler used by spack\n",
     make_entry "CC" cfg.spack_cc,
     "# cpp compiler used by spack\n",
     make_entry "CXX" cfg.mpicxx,
     "# fortran compiler used by spack\n",
     make_entry "FC" (pyStrOpt (f_compiler cfg)),
     make_entry "CC" cfg.mpicxx,
     make_entry "LINKER" "nvcc" ],
    [ "EXTRA_LINK_FLAGS = ",
     make_lib_entry cfg.lapack_root,
     make_lib_entry cfg.blas_root,
     make_lib_entry cfg.umpire_root,
     make_lib_entry cfg.raja_root,
     make_lib_entry cfg.proj_root,
     "\n",
     "##################################\n",
     "# end spack generated make.inc\n",
     "##################################\n" ], ?_⟩
  rfl

/-- C9: both emitters are deterministic — equal configurations (same
compilers, flags, dependency roots, and recorded filesystem
observations) produce identical filename and written chunks. -/
theorem c9_deterministic (a b : Config) (h : a = b) :
    create_host_config a = create_host_config b ∧ makefile_inc a = makefile_inc b := by
  subst h
  exact ⟨rfl, rfl⟩

/-- Witness for C9 at the concrete configuration `cfgMpi`. -/
theorem c9_deterministic_witness :
    create_host_config cfgMpi = create_host_config cfgMpi
    ∧ makefile_inc cfgMpi = makefile_inc cfgMpi :=
  c9_deterministic cfgMpi cfgMpi rfl

/-- C10: when no Fortran compiler is detected the Makefile emitter
still writes the FC assignment, whose value is the Python rendering of
`None`, i.e. the chunk `FC = None \n` (with the trailing space of
`make_entry`), rather than omitting the line or raising. -/
theorem c10_fc_none_line (cfg : Config) (h : f_compiler cfg = none) :
    make_entry "FC" (pyStrOpt (f_compiler cfg)) = "FC = None \n"
    ∧ "FC = None \n" ∈ (makefile_inc cfg).2 := by
  have hx : make_entry "FC" (pyStrOpt (f_compiler cfg)) = "FC = None \n" := by
    rw [h]; decide
  refine ⟨hx, ?_⟩
  rw [← hx]
  exact .tail _ (.tail _ (.tail _ (.tail _ (.tail _ (.tail _ (.tail _ (.tail _ (.tail _
    (.tail _ (.tail _ (.tail _ (.tail _ (.head _)))))))))))))

/-- Witness for C10 at the concrete configuration `cfgNoMpi` (no
Fortran compiler detected). -/
theorem c10_fc_none_line_witness :
    make_entry "FC" (pyStrOpt (f_compiler cfgNoMpi)) = "FC = None \n"
    ∧ "FC = None \n" ∈ (makefile_inc cfgNoMpi).2 :=
  c10_fc_none_line cfgNoMpi rfl

end Sw4Uberenv
